import Mathlib

/-!
Verification of the `mcp-obsidian` tool-invocation gateway.

This file is a shallow embedding of the repository's two core modules:

* `src/obsidian_mcp/obsidian.py` — the document-store Client (`Obsidian`
  class): base-URL construction, header injection, the shared request
  executor `_make_request`, and one method per store capability.
* `src/obsidian_mcp/tools.py` — the Tool Gateway: twelve `@mcp.tool`
  handlers that validate arguments, construct a Client and delegate to it.

Python's dynamic values (JSON bodies, tool results) are modelled by the
inductive `Py`.  The HTTP transport (`requests`) is modelled by a `Store`
function from a structurally built `Request` to a reply; each embedded
operation returns its result together with the list of requests it issued,
so "no HTTP request is made" is the trace being `[]`.
-/

/-- A Python value: the dynamic data that flows through JSON bodies and
tool results (`None`, `bool`, `int`, `str`, `list`, `dict`). -/
inductive Py where
  | none
  | bool (b : Bool)
  | int (n : Int)
  | str (s : String)
  | list (xs : List Py)
  | dict (fields : List (String × Py))

/-- Lookup in an association list, as Python `dict.get` / `in` on the
string-keyed dicts that appear in this code base. -/
def lookupStr {α : Type} (l : List (String × α)) (k : String) : Option α :=
  (l.find? (fun p => p.1 == k)).map (fun p => p.2)

/-- Python `d.get(key, default)` on a parsed JSON object. -/
def dGet (fields : List (String × Py)) (key : String) (dflt : Py) : Py :=
  match lookupStr fields key with
  | some v => v
  | Option.none => dflt

/-- Python `dict.update`: keys of `base` keep their position but take the
value from `extra` when present there; keys only in `extra` are appended in
order.  Used for the header merge in `_make_request`. -/
def dictUpdate (base extra : List (String × String)) : List (String × String) :=
  (base.map (fun p =>
    match lookupStr extra p.1 with
    | some v => (p.1, v)
    | Option.none => p))
  ++ extra.filter (fun q => base.all (fun p => p.1 ≠ q.1))

/-- The body of an HTTP response, abstracted by how `requests` exposes it:
empty (`response.content` falsy), non-empty text that fails JSON parsing
(`response.json()` raises a decode error whose `str()` is `decodeMsg`), or
non-empty text that parses to the JSON value `value`. -/
inductive Body where
  | empty
  | notJson (text : String) (decodeMsg : String)
  | json (text : String) (value : Py)

/-- `response.text`: the decoded character body. -/
def Body.textOf : Body → String
  | .empty => ""
  | .notJson t _ => t
  | .json t _ => t

/-- An HTTP response from the store. -/
structure HttpResponse where
  status : Nat
  body : Body

/-- One HTTP request as handed to `requests.request` by `_make_request`:
method, path (appended to the fixed base URL), merged headers, query
params, raw `data` payload and optional `json=` payload. -/
structure Request where
  method : String
  path : String
  headers : List (String × String)
  params : List (String × Py)
  body : String
  jsonBody : Option Py

/-- The store's reply to one request: an HTTP response, or a
transport-level failure (connection refused, timeout, DNS, TLS) whose
`str()` description is `desc`. -/
inductive StoreReply where
  | ok (resp : HttpResponse)
  | transportFail (desc : String)

/-- The document store as seen through `requests`: a function from the
request issued to the reply observed. -/
def Store := Request → StoreReply

/-- The exceptions that can escape `Obsidian._make_request` and the
response-interpreting code of the Client methods.

* `http code message`: the normalized store error
  `Exception(f"Error {code}: {message}")` raised on an HTTP error status
  (`code` and `message` are the JSON body's fields, or the defaults).
* `jsonDecode msg`: `response.json()` raised a JSON decode error (this
  escapes `_make_request` un-normalized: it is raised inside the
  `except requests.HTTPError` handler, and sibling handlers of the same
  `try` do not catch it; it also occurs on a success path whose body is
  not JSON).
* `attrGet desc`: `.get(...)` called on a non-dict parsed body
  (`AttributeError`).
* `keyErr key`: `[...]` subscript on a dict lacking `key` (`KeyError`).
* `typeErr desc`: subscripting or iterating a value of the wrong shape
  (`TypeError`).
* `transportErr desc`: the normalized transport failure
  `Exception(f"Request failed: {desc}")`. -/
inductive ReqError where
  | http (code : Py) (message : Py)
  | jsonDecode (msg : String)
  | attrGet (desc : String)
  | keyErr (key : String)
  | typeErr (desc : String)
  | transportErr (desc : String)

/-- `Obsidian.__init__`-visible configuration: `api_key` plus the base-URL
components (tools.py always leaves `protocol='https'`, `port=27124`). -/
structure Config where
  apiKey : String
  protocol : String
  host : String
  port : Nat

/-- `self.base_url = f'{self.protocol}://{self.host}:{self.port}'`. -/
def Config.baseUrl (cfg : Config) : String :=
  cfg.protocol ++ "://" ++ cfg.host ++ ":" ++ toString cfg.port

/-- The request object built by `_make_request`: headers are the base
`{'Authorization': f'Bearer {api_key}'}` updated with the call's extra
headers. -/
def buildRequest (cfg : Config) (method path : String)
    (extraHeaders : List (String × String)) (params : List (String × Py))
    (data : String) (jsonBody : Option Py) : Request :=
  { method := method
    path := path
    headers := dictUpdate [("Authorization", "Bearer " ++ cfg.apiKey)] extraHeaders
    params := params
    body := data
    jsonBody := jsonBody }

/-- The result component of `_make_request`: perform the call, then
`raise_for_status()`; on an HTTP error status (400–599) parse the body as
JSON if non-empty (`{}` if empty) and raise `Error {errorCode}: {message}`
with defaults `-1` and `'<unknown>'`; on a transport failure raise
`Request failed: {e}`. -/
def makeRequestResult (store : Store) (req : Request) :
    Except ReqError HttpResponse :=
  match store req with
  | .transportFail desc => .error (.transportErr desc)
  | .ok resp =>
    if 400 ≤ resp.status ∧ resp.status < 600 then
      match resp.body with
      | .empty =>
        .error (.http (.int (-1)) (.str "<unknown>"))
      | .notJson _ decodeMsg =>
        .error (.jsonDecode decodeMsg)
      | .json _ (.dict fields) =>
        .error (.http (dGet fields "errorCode" (.int (-1)))
                      (dGet fields "message" (.str "<unknown>")))
      | .json _ _ =>
        .error (.attrGet "object has no attribute get")
    else
      .ok resp

/-- `Obsidian._make_request`: builds the request (auth header merged with
the call's headers), issues it exactly once, and interprets the outcome.
The second component is the trace of requests issued. -/
def makeRequest (cfg : Config) (store : Store) (method path : String)
    (extraHeaders : List (String × String)) (params : List (String × Py))
    (data : String) (jsonBody : Option Py) :
    Except ReqError HttpResponse × List Request :=
  let req := buildRequest cfg method path extraHeaders params data jsonBody
  (makeRequestResult store req, [req])

/-- Python `repr` of a `str`, restricted to the escapes this code base can
hit: prefers single quotes, switches to double quotes when the string
contains a single quote but no double quote, and escapes backslash,
the delimiter, newline, carriage return and tab. -/
def pyStrRepr (s : String) : String :=
  if s.data.contains '\'' && ! s.data.contains '"' then
    "\"" ++ String.join (s.data.map (fun c =>
      if c == '\\' then "\\\\"
      else if c == '"' then "\\\""
      else if c == '\n' then "\\n"
      else if c == '\r' then "\\r"
      else if c == '\t' then "\\t"
      else String.singleton c)) ++ "\""
  else
    "'" ++ String.join (s.data.map (fun c =>
      if c == '\\' then "\\\\"
      else if c == '\'' then "\\'"
      else if c == '\n' then "\\n"
      else if c == '\r' then "\\r"
      else if c == '\t' then "\\t"
      else String.singleton c)) ++ "'"

mutual

/-- Python `repr` of a dynamic value. -/
def pyRepr : Py → String
  | .none => "None"
  | .bool true => "True"
  | .bool false => "False"
  | .int n => toString n
  | .str s => pyStrRepr s
  | .list xs => "[" ++ pyReprList xs ++ "]"
  | .dict fs => "\x7b" ++ pyReprFields fs ++ "\x7d"

/-- Comma-joined `repr`s of the elements of a list. -/
def pyReprList : List Py → String
  | [] => ""
  | [x] => pyRepr x
  | x :: y :: rest => pyRepr x ++ ", " ++ pyReprList (y :: rest)

/-- Comma-joined `repr`s of the key/value pairs of a dict. -/
def pyReprFields : List (String × Py) → String
  | [] => ""
  | [(k, v)] => pyStrRepr k ++ ": " ++ pyRepr v
  | (k, v) :: p :: rest => pyStrRepr k ++ ": " ++ pyRepr v ++ ", " ++ pyReprFields (p :: rest)

end

/-- Python `str` of a dynamic value (as used by f-string interpolation):
a `str` is rendered verbatim, everything else as its `repr`. -/
def pyStr : Py → String
  | .str s => s
  | v => pyRepr v

/-- Uppercase hexadecimal rendering of a byte, two digits. -/
def hexByte (b : Nat) : String :=
  let digit := fun (n : Nat) =>
    String.singleton ("0123456789ABCDEF".data.getD n '0')
  digit (b / 16 % 16) ++ digit (b % 16)

/-- `urllib.parse.quote` with its default `safe='/'`: unreserved
characters and `/` pass through, everything else is percent-encoded from
its UTF-8 bytes. -/
def urlQuote (s : String) : String :=
  String.join (s.data.map (fun c =>
    if c.isAlphanum || c == '_' || c == '.' || c == '-' || c == '~' || c == '/' then
      String.singleton c
    else
      String.join (((String.singleton c).toUTF8.toList).map
        (fun b => "%" ++ hexByte b.toNat))))

/-- `response.json()` on a response body: the parsed value, or the JSON
decode error it raises (an empty body is also a decode failure). -/
def Body.jsonOf : Body → Except ReqError Py
  | .empty => .error (.jsonDecode "Expecting value: line 1 column 1 (char 0)")
  | .notJson _ decodeMsg => .error (.jsonDecode decodeMsg)
  | .json _ v => .ok v

/-- Python `value[key]` subscripting on a parsed JSON value. -/
def pySubscript (v : Py) (key : String) : Except ReqError Py :=
  match v with
  | .dict fields =>
    match lookupStr fields key with
    | some x => .ok x
    | Option.none => .error (.keyErr key)
  | _ => .error (.typeErr "object is not subscriptable")

/-- Python `str()` of the exception each `ReqError` stands for, as
interpolated by `f"Error reading file: {str(e)}"` in the batch reader. -/
def ReqError.toMessage : ReqError → String
  | .http code message => "Error " ++ pyStr code ++ ": " ++ pyStr message
  | .jsonDecode msg => msg
  | .attrGet desc => desc
  | .keyErr key => pyStrRepr key
  | .typeErr desc => desc
  | .transportErr desc => "Request failed: " ++ desc

namespace Obsidian

/-- `Obsidian.list_files_in_vault`: GET `/vault/`, unwrap `['files']`. -/
def list_files_in_vault (cfg : Config) (store : Store) :
    Except ReqError Py × List Request :=
  let (res, t) := makeRequest cfg store "GET" "/vault/" [] [] "" Option.none
  (res.bind (fun resp => (resp.body.jsonOf).bind (fun v => pySubscript v "files")), t)

/-- `Obsidian.list_files_in_dir`: GET `/vault/{dirpath}/`, unwrap `['files']`. -/
def list_files_in_dir (cfg : Config) (store : Store) (dirpath : String) :
    Except ReqError Py × List Request :=
  let (res, t) := makeRequest cfg store "GET" ("/vault/" ++ dirpath ++ "/") [] [] "" Option.none
  (res.bind (fun resp => (resp.body.jsonOf).bind (fun v => pySubscript v "files")), t)

/-- `Obsidian.get_file_contents`: GET `/vault/{filepath}`; returns the
dict `{"now": <today's ISO date>, "content": <response.text>}`, modelled
as the pair `(now, content)`.  `today` stands for
`datetime.now().date().isoformat()`. -/
def get_file_contents (cfg : Config) (store : Store) (today : String)
    (filepath : String) : Except ReqError (String × String) × List Request :=
  let (res, t) := makeRequest cfg store "GET" ("/vault/" ++ filepath) [] [] "" Option.none
  (res.map (fun resp => (today, resp.body.textOf)), t)

/-- Python `str` of the dict returned by `get_file_contents`, as
interpolated into the batch header block. -/
def fileDictStr (now content : String) : String :=
  "\x7b'now': " ++ pyStrRepr now ++ ", 'content': " ++ pyStrRepr content ++ "\x7d"

/-- The block `get_batch_file_contents` appends for one filepath: the
header, then the file's content dict or the inline error marker, then the
separator. -/
def batchBlock (filepath : String) (res : Except ReqError (String × String)) :
    String :=
  match res with
  | .ok (now, content) =>
    "# " ++ filepath ++ "\n\n" ++ fileDictStr now content ++ "\n\n---\n\n"
  | .error e =>
    "# " ++ filepath ++ "\n\nError reading file: " ++ e.toMessage ++ "\n\n---\n\n"

/-- `Obsidian.get_batch_file_contents`: reads each path via
`get_file_contents`, catching any per-file exception and substituting the
inline error marker; concatenates the blocks in input order. -/
def get_batch_file_contents (cfg : Config) (store : Store) (today : String)
    (filepaths : List String) : Except ReqError String × List Request :=
  let blocks := filepaths.map (fun fp =>
    let (res, t) := get_file_contents cfg store today fp
    (batchBlock fp res, t))
  (.ok (String.join (blocks.map (fun b => b.1))),
   (blocks.map (fun b => b.2)).flatten)

/-- `Obsidian.search`: POST `/search/simple/` with `query` and
`contextLength` params; returns `response.json()`. -/
def search (cfg : Config) (store : Store) (query : String)
    (context_length : Int) : Except ReqError Py × List Request :=
  let (res, t) := makeRequest cfg store "POST" "/search/simple/" []
    [("query", .str query), ("contextLength", .int context_length)] "" Option.none
  (res.bind (fun resp => resp.body.jsonOf), t)

/-- `Obsidian.append_content`: POST `/vault/{filepath}` with a markdown
content type and the raw content as body; returns `None`. -/
def append_content (cfg : Config) (store : Store) (filepath content : String) :
    Except ReqError Unit × List Request :=
  let (res, t) := makeRequest cfg store "POST" ("/vault/" ++ filepath)
    [("Content-Type", "text/markdown")] [] content Option.none
  (res.map (fun _ => ()), t)

/-- `Obsidian.patch_content`: PATCH `/vault/{filepath}` with the
Operation / Target-Type / URL-quoted Target headers and the raw content as
body; returns `None`. -/
def patch_content (cfg : Config) (store : Store)
    (filepath operation target_type target content : String) :
    Except ReqError Unit × List Request :=
  let (res, t) := makeRequest cfg store "PATCH" ("/vault/" ++ filepath)
    [("Content-Type", "text/markdown"), ("Operation", operation),
     ("Target-Type", target_type), ("Target", urlQuote target)] [] content Option.none
  (res.map (fun _ => ()), t)

/-- `Obsidian.delete_file`: DELETE `/vault/{filepath}`; returns the raw
HTTP status code. -/
def delete_file (cfg : Config) (store : Store) (filepath : String) :
    Except ReqError Nat × List Request :=
  let (res, t) := makeRequest cfg store "DELETE" ("/vault/" ++ filepath) [] [] "" Option.none
  (res.map (fun resp => resp.status), t)

/-- `Obsidian.search_json`: POST `/search/` with the JsonLogic content
type and the query as the `json=` payload; returns `response.json()`. -/
def search_json (cfg : Config) (store : Store) (query : Py) :
    Except ReqError Py × List Request :=
  let (res, t) := makeRequest cfg store "POST" "/search/"
    [("Content-Type", "application/vnd.olrapi.jsonlogic+json")] [] "" (some query)
  (res.bind (fun resp => resp.body.jsonOf), t)

/-- `Obsidian.get_periodic_note`: GET `/periodic/{period}/`; returns
`response.text`. -/
def get_periodic_note (cfg : Config) (store : Store) (period : String) :
    Except ReqError String × List Request :=
  let (res, t) := makeRequest cfg store "GET" ("/periodic/" ++ period ++ "/") [] [] "" Option.none
  (res.map (fun resp => resp.body.textOf), t)

/-- `Obsidian.get_recent_periodic_notes`: GET `/periodic/{period}/recent`
with `limit` and `includeContent` params; returns `response.json()`. -/
def get_recent_periodic_notes (cfg : Config) (store : Store)
    (period : String) (limit : Int) (include_content : Bool) :
    Except ReqError Py × List Request :=
  let (res, t) := makeRequest cfg store "GET" ("/periodic/" ++ period ++ "/recent") []
    [("limit", .int limit), ("includeContent", .bool include_content)] "" Option.none
  (res.bind (fun resp => resp.body.jsonOf), t)

/-- The Dataview DQL query text `get_recent_changes` builds:
`"\n".join(["TABLE file.mtime", f"WHERE ... dur({days} days)",
"SORT file.mtime DESC", f"LIMIT {limit}"])`. -/
def dqlQuery (limit days : Int) : String :=
  "TABLE file.mtime\nWHERE file.mtime >= date(today) - dur("
    ++ toString days ++ " days)\nSORT file.mtime DESC\nLIMIT " ++ toString limit

/-- `Obsidian.get_recent_changes`: POST the generated DQL query to
`/search/` with the Dataview DQL content type; returns `response.json()`. -/
def get_recent_changes (cfg : Config) (store : Store) (limit days : Int) :
    Except ReqError Py × List Request :=
  let (res, t) := makeRequest cfg store "POST" "/search/"
    [("Content-Type", "application/vnd.olrapi.dataview.dql+txt")] []
    (dqlQuery limit days) Option.none
  (res.bind (fun resp => resp.body.jsonOf), t)

end Obsidian

/-- The exceptions a tool handler can raise before or instead of a store
call: `RuntimeError` validation/safety failures raised in tools.py,
`FileNotFoundError` from `Obsidian.__init__`'s local-vault check, or a
Client exception propagating through the handler. -/
inductive ToolError where
  | runtimeError (msg : String)
  | fileNotFound (msg : String)
  | clientError (e : ReqError)

/-- `valid_periods = ["daily", "weekly", "monthly", "quarterly", "yearly"]`. -/
def validPeriods : List String :=
  ["daily", "weekly", "monthly", "quarterly", "yearly"]

/-- `Obsidian(api_key=api_key, host=obsidian_host)` as every tools.py
handler constructs it: `protocol`, `port` and `verify_ssl` keep their
defaults and `local_vault_path` is omitted, so `__init__` falls back to
the hardcoded default directory and raises `FileNotFoundError` when that
directory does not exist on the local filesystem (`vaultOk = false`). -/
def mkObsidian (apiKey host : String) (vaultOk : Bool) :
    Except ToolError Config :=
  if vaultOk then
    .ok { apiKey := apiKey, protocol := "https", host := host, port := 27124 }
  else
    .error (.fileNotFound
      "Local Obsidian vault not found at C:\\Users\\joelc\\Obsidian\\Home")

/-- Lift a completed Client call into the tool layer, wrapping its
exception channel. -/
def liftClient {α : Type} (shape : α → Py)
    (r : Except ReqError α × List Request) : Except ToolError Py × List Request :=
  (match r.1 with
   | .ok v => .ok (shape v)
   | .error e => .error (.clientError e), r.2)

namespace Tools

/-- tools.py `list_files_in_vault`: construct a Client, GET the vault
root listing. -/
def list_files_in_vault (apiKey host : String) (vaultOk : Bool)
    (store : Store) : Except ToolError Py × List Request :=
  match mkObsidian apiKey host vaultOk with
  | .error e => (.error e, [])
  | .ok cfg => liftClient id (Obsidian.list_files_in_vault cfg store)

/-- tools.py `list_files_in_dir`. -/
def list_files_in_dir (apiKey host : String) (vaultOk : Bool)
    (store : Store) (dirpath : String) : Except ToolError Py × List Request :=
  match mkObsidian apiKey host vaultOk with
  | .error e => (.error e, [])
  | .ok cfg => liftClient id (Obsidian.list_files_in_dir cfg store dirpath)

/-- tools.py `get_file_contents`: returns whatever the Client returned —
the `{"now": ..., "content": ...}` dict (despite the handler's `-> str`
annotation). -/
def get_file_contents (apiKey host : String) (vaultOk : Bool)
    (store : Store) (today filepath : String) :
    Except ToolError Py × List Request :=
  match mkObsidian apiKey host vaultOk with
  | .error e => (.error e, [])
  | .ok cfg =>
    liftClient
      (fun p => Py.dict [("now", .str p.1), ("content", .str p.2)])
      (Obsidian.get_file_contents cfg store today filepath)

/-- One match entry of the simple-search reshaping loop:
`{'context': match.get('context',''), 'match_position': {'start':
match.get('match',{}).get('start',0), 'end': ...get('end',0)}}`. -/
def formatMatch (m : Py) : Except ToolError Py :=
  match m with
  | .dict mf =>
    let context := dGet mf "context" (.str "")
    match dGet mf "match" (.dict []) with
    | .dict pf =>
      .ok (.dict [("context", context),
        ("match_position", .dict [("start", dGet pf "start" (.int 0)),
                                  ("end", dGet pf "end" (.int 0))])])
    | _ => .error (.clientError (.attrGet "object has no attribute get"))
  | _ => .error (.clientError (.attrGet "object has no attribute get"))

/-- The inner `for match in result.get('matches', [])` loop. -/
def formatMatches : List Py → Except ToolError (List Py)
  | [] => .ok []
  | m :: rest => do
    let fm ← formatMatch m
    let fr ← formatMatches rest
    .ok (fm :: fr)

/-- One result entry of the simple-search reshaping loop: the projected
`{'filename', 'score', 'matches'}` dict with its defaults. -/
def formatResult (r : Py) : Except ToolError Py :=
  match r with
  | .dict rf =>
    match dGet rf "matches" (.list []) with
    | .list ms => do
      let fms ← formatMatches ms
      .ok (.dict [("filename", dGet rf "filename" (.str "")),
                  ("score", dGet rf "score" (.int 0)),
                  ("matches", .list fms)])
    | _ => .error (.clientError (.typeErr "object is not iterable"))
  | _ => .error (.clientError (.attrGet "object has no attribute get"))

/-- The outer `for result in results` loop. -/
def formatResults : List Py → Except ToolError (List Py)
  | [] => .ok []
  | r :: rest => do
    let fr ← formatResult r
    let frs ← formatResults rest
    .ok (fr :: frs)

/-- tools.py `simple_search`: POST the query, then re-project each raw
result into `{filename, score, matches}`. -/
def simple_search (apiKey host : String) (vaultOk : Bool) (store : Store)
    (query : String) (context_length : Int) :
    Except ToolError Py × List Request :=
  match mkObsidian apiKey host vaultOk with
  | .error e => (.error e, [])
  | .ok cfg =>
    let (res, t) := Obsidian.search cfg store query context_length
    (match res with
     | .error e => .error (.clientError e)
     | .ok (.list results) =>
       (formatResults results).map (fun frs => Py.list frs)
     | .ok _ => .error (.clientError (.typeErr "object is not iterable")), t)

/-- tools.py `append_content`: delegate, then report a fixed success
message. -/
def append_content (apiKey host : String) (vaultOk : Bool) (store : Store)
    (filepath content : String) : Except ToolError Py × List Request :=
  match mkObsidian apiKey host vaultOk with
  | .error e => (.error e, [])
  | .ok cfg =>
    liftClient (fun _ => .str ("Successfully appended content to " ++ filepath))
      (Obsidian.append_content cfg store filepath content)

/-- tools.py `patch_content`: delegate, then report a fixed success
message. -/
def patch_content (apiKey host : String) (vaultOk : Bool) (store : Store)
    (filepath operation target_type target content : String) :
    Except ToolError Py × List Request :=
  match mkObsidian apiKey host vaultOk with
  | .error e => (.error e, [])
  | .ok cfg =>
    liftClient (fun _ => .str ("Successfully patched content in " ++ filepath))
      (Obsidian.patch_content cfg store filepath operation target_type target content)

/-- tools.py `delete_file`: the safety gate `if not confirm: raise`, then
delegate; the Client's returned status code is discarded and a fixed
success message returned. -/
def delete_file (apiKey host : String) (vaultOk : Bool) (store : Store)
    (filepath : String) (confirm : Bool) : Except ToolError Py × List Request :=
  if ¬ confirm then
    (.error (.runtimeError "confirm must be set to true to delete a file"), [])
  else
    match mkObsidian apiKey host vaultOk with
    | .error e => (.error e, [])
    | .ok cfg =>
      liftClient (fun _ => .str ("Successfully deleted " ++ filepath))
        (Obsidian.delete_file cfg store filepath)

/-- tools.py `complex_search`: delegate to the JsonLogic search. -/
def complex_search (apiKey host : String) (vaultOk : Bool) (store : Store)
    (query : Py) : Except ToolError Py × List Request :=
  match mkObsidian apiKey host vaultOk with
  | .error e => (.error e, [])
  | .ok cfg => liftClient id (Obsidian.search_json cfg store query)

/-- tools.py `batch_get_file_contents`: delegate to the batch reader. -/
def batch_get_file_contents (apiKey host : String) (vaultOk : Bool)
    (store : Store) (today : String) (filepaths : List String) :
    Except ToolError Py × List Request :=
  match mkObsidian apiKey host vaultOk with
  | .error e => (.error e, [])
  | .ok cfg =>
    liftClient (fun s => .str s)
      (Obsidian.get_batch_file_contents cfg store today filepaths)

/-- tools.py `get_periodic_note`: validate the period keyword, then
delegate. -/
def get_periodic_note (apiKey host : String) (vaultOk : Bool)
    (store : Store) (period : String) : Except ToolError Py × List Request :=
  if ¬ validPeriods.contains period then
    (.error (.runtimeError ("Invalid period: " ++ period ++ ". Must be one of: "
      ++ String.intercalate ", " validPeriods)), [])
  else
    match mkObsidian apiKey host vaultOk with
    | .error e => (.error e, [])
    | .ok cfg =>
      liftClient (fun s => .str s) (Obsidian.get_periodic_note cfg store period)

/-- tools.py `get_recent_periodic_notes`: validate period then limit
(`isinstance(limit, int)` always holds for the typed argument), then
delegate. -/
def get_recent_periodic_notes (apiKey host : String) (vaultOk : Bool)
    (store : Store) (period : String) (limit : Int) (include_content : Bool) :
    Except ToolError Py × List Request :=
  if ¬ validPeriods.contains period then
    (.error (.runtimeError ("Invalid period: " ++ period ++ ". Must be one of: "
      ++ String.intercalate ", " validPeriods)), [])
  else if limit < 1 then
    (.error (.runtimeError ("Invalid limit: " ++ toString limit
      ++ ". Must be a positive integer")), [])
  else
    match mkObsidian apiKey host vaultOk with
    | .error e => (.error e, [])
    | .ok cfg =>
      liftClient id
        (Obsidian.get_recent_periodic_notes cfg store period limit include_content)

/-- tools.py `get_recent_changes`: validate limit then days
(`isinstance` checks always hold for the typed arguments), then
delegate. -/
def get_recent_changes (apiKey host : String) (vaultOk : Bool)
    (store : Store) (limit days : Int) : Except ToolError Py × List Request :=
  if limit < 1 then
    (.error (.runtimeError ("Invalid limit: " ++ toString limit
      ++ ". Must be a positive integer")), [])
  else if days < 1 then
    (.error (.runtimeError ("Invalid days: " ++ toString days
      ++ ". Must be a positive integer")), [])
  else
    match mkObsidian apiKey host vaultOk with
    | .error e => (.error e, [])
    | .ok cfg => liftClient id (Obsidian.get_recent_changes cfg store limit days)

end Tools

/-- `Authorization: Bearer <token>` is present among a request's headers
with the expected value. -/
def authOk (k : String) (r : Request) : Prop :=
  lookupStr r.headers "Authorization" = some ("Bearer " ++ k)

/-- A store stub that answers every request with `204 No Content`. -/
def stubStore204 : Store := fun _ => .ok { status := 204, body := .empty }

/-- A store stub that answers every request with `404` and the JSON error
body from the spec's exemplar. -/
def stubStore404 : Store := fun _ =>
  .ok { status := 404,
        body := .json "x"
          (.dict [("errorCode", .int 40102), ("message", .str "not found")]) }

/-- A store stub that answers every request with `404` and a non-empty
body that is not valid JSON. -/
def stubStore404Bad : Store := fun _ =>
  .ok { status := 404,
        body := .notJson "oops" "Expecting value: line 1 column 1 (char 0)" }

/-- A store stub that accepts appends (`POST`, 204 empty) and echoes the
text `hello` on reads. -/
def echoStoreHello : Store := fun r =>
  if r.method == "POST" then .ok { status := 204, body := .empty }
  else .ok { status := 200,
             body := .notJson "hello" "Expecting value: line 1 column 1 (char 0)" }

/-- The configuration every tools.py handler builds when the local vault
directory exists: `Obsidian(api_key=k, host=h)`. -/
def toolConfig (k h : String) : Config :=
  { apiKey := k, protocol := "https", host := h, port := 27124 }

/-- `', '.join(valid_periods)` evaluates to the literal appearing in the
validation error messages. -/
theorem validPeriods_joined :
    String.intercalate ", " validPeriods =
      "daily, weekly, monthly, quarterly, yearly" := rfl

/-- C1 (counterexample): the claim "invoking delete_file with
confirm=true ... returns the store's HTTP status code unchanged to the
caller" is false for the tool handler: against a store answering the
DELETE with status 204, the tool returns the fixed success string, not
the status code (which the Client layer did return). -/
theorem C1_counterexample :
    (Tools.delete_file "k" "h" true stubStore204 "a.md" true).1 =
      .ok (.str "Successfully deleted a.md") ∧
    (Obsidian.delete_file (toolConfig "k" "h") stubStore204 "a.md").1 = .ok 204 ∧
    Except.ok (Py.str "Successfully deleted a.md") ≠
      (Except.ok (Py.int 204) : Except ToolError Py) := by
  refine ⟨rfl, rfl, fun hcontra => ?_⟩
  cases hcontra

/-- C1 (amended): `delete_file` with confirm=false fails with the safety
RuntimeError and issues no request; with confirm=true it issues exactly
one DELETE to `/vault/{filepath}`; on a success status the Client method
returns the store's status code unchanged, but the tool handler discards
it and returns the fixed success message. -/
theorem C1_delete_gate (k h fp : String) (store : Store) :
    Tools.delete_file k h true store fp false =
      (.error (.runtimeError "confirm must be set to true to delete a file"), []) ∧
    (Tools.delete_file k h true store fp true).2 =
      [buildRequest (toolConfig k h) "DELETE" ("/vault/" ++ fp) [] [] "" Option.none] ∧
    (∀ resp : HttpResponse,
      store (buildRequest (toolConfig k h) "DELETE" ("/vault/" ++ fp) [] [] ""
        Option.none) = .ok resp →
      resp.status < 400 →
      (Tools.delete_file k h true store fp true).1 =
        .ok (.str ("Successfully deleted " ++ fp)) ∧
      (Obsidian.delete_file (toolConfig k h) store fp).1 = .ok resp.status) := by
  refine ⟨rfl, rfl, fun resp hst hlt => ?_⟩
  have hnot : ¬ (400 ≤ resp.status ∧ resp.status < 600) := by omega
  simp only [toolConfig] at hst
  constructor
  · simp [Tools.delete_file, mkObsidian, liftClient, Obsidian.delete_file,
      makeRequest, makeRequestResult, hst, hnot, Except.map]
  · simp [Obsidian.delete_file, toolConfig, makeRequest, makeRequestResult, hst, hnot,
      Except.map]

/-- C1 (witness): the amended theorem applied at a concrete store. -/
theorem C1_witness :
    (Tools.delete_file "k" "h" true stubStore204 "a.md" true).1 =
      .ok (.str "Successfully deleted a.md") ∧
    (Obsidian.delete_file (toolConfig "k" "h") stubStore204 "a.md").1 = .ok 204 :=
  (C1_delete_gate "k" "h" "a.md" stubStore204).2.2
    { status := 204, body := .empty } rfl (by decide)

/-- C2: for the operations with explicit validation rules, any argument
mapping violating those rules (period outside the five keywords, limit
below 1, days below 1) fails with the descriptive RuntimeError and issues
no HTTP request — the Client is never invoked, whether or not the local
vault directory exists.  (Wrong-type arguments are excluded at the
protocol schema layer, which the typed embedding reflects.) -/
theorem C2_validation_no_request (k h : String) (vaultOk : Bool)
    (store : Store) (period : String) (limit days : Int) (ic : Bool) :
    (period ∉ validPeriods →
      Tools.get_periodic_note k h vaultOk store period =
        (.error (.runtimeError ("Invalid period: " ++ period
          ++ ". Must be one of: daily, weekly, monthly, quarterly, yearly")), []) ∧
      Tools.get_recent_periodic_notes k h vaultOk store period limit ic =
        (.error (.runtimeError ("Invalid period: " ++ period
          ++ ". Must be one of: daily, weekly, monthly, quarterly, yearly")), [])) ∧
    (period ∈ validPeriods → limit < 1 →
      Tools.get_recent_periodic_notes k h vaultOk store period limit ic =
        (.error (.runtimeError ("Invalid limit: " ++ toString limit
          ++ ". Must be a positive integer")), [])) ∧
    (limit < 1 →
      Tools.get_recent_changes k h vaultOk store limit days =
        (.error (.runtimeError ("Invalid limit: " ++ toString limit
          ++ ". Must be a positive integer")), [])) ∧
    (1 ≤ limit → days < 1 →
      Tools.get_recent_changes k h vaultOk store limit days =
        (.error (.runtimeError ("Invalid days: " ++ toString days
          ++ ". Must be a positive integer")), [])) := by
  refine ⟨fun hp => ⟨?_, ?_⟩, fun hp hl => ?_, fun hl => ?_, fun hl hd => ?_⟩
  · simp [Tools.get_periodic_note, hp, validPeriods_joined, String.append_assoc]
  · simp [Tools.get_recent_periodic_notes, hp, validPeriods_joined, String.append_assoc]
  · simp [Tools.get_recent_periodic_notes, hp, hl]
  · simp [Tools.get_recent_changes, hl]
  · have hnl : ¬ (limit < 1) := by omega
    simp [Tools.get_recent_changes, hnl, hd]

/-- C2 (witness): the validation failures at concrete invalid inputs. -/
theorem C2_witness :
    Tools.get_periodic_note "k" "h" true stubStore204 "hourly" =
      (.error (.runtimeError
        "Invalid period: hourly. Must be one of: daily, weekly, monthly, quarterly, yearly"), []) ∧
    Tools.get_recent_periodic_notes "k" "h" true stubStore204 "daily" 0 false =
      (.error (.runtimeError "Invalid limit: 0. Must be a positive integer"), []) ∧
    Tools.get_recent_changes "k" "h" true stubStore204 10 0 =
      (.error (.runtimeError "Invalid days: 0. Must be a positive integer"), []) :=
  ⟨((C2_validation_no_request "k" "h" true stubStore204 "hourly" 5 90 false).1
      (by decide)).1,
   (C2_validation_no_request "k" "h" true stubStore204 "daily" 0 90 false).2.1
      (by decide) (by decide),
   (C2_validation_no_request "k" "h" true stubStore204 "daily" 10 0 false).2.2.2
      (by decide) (by decide)⟩

/-- C3 (counterexample): the claim's "defaulting to -1 and a placeholder
when the body is empty or unparseable" is false for an unparseable body:
on a 404 whose non-empty body is not JSON, `e.response.json()` raises a
JSON decode error inside the `except requests.HTTPError` handler, and
that error propagates un-normalized instead of `StoreError(-1,
placeholder)`. -/
theorem C3_counterexample :
    (makeRequest (toolConfig "k" "h") stubStore404Bad "GET" "/vault/a.md"
        [] [] "" Option.none).1 =
      .error (.jsonDecode "Expecting value: line 1 column 1 (char 0)") ∧
    Except.error (ReqError.jsonDecode "Expecting value: line 1 column 1 (char 0)") ≠
      (Except.error (.http (.int (-1)) (.str "<unknown>")) :
        Except ReqError HttpResponse) := by
  refine ⟨rfl, fun hcontra => ?_⟩
  cases hcontra

/-- C3 (amended): on an HTTP error status the failure is the normalized
store error built from the JSON body's errorCode/message fields,
defaulting to -1 and the placeholder only when the body is empty; a
non-empty unparseable body instead raises the JSON decode error
un-normalized.  On a transport-level failure the raised error carries no
store code and renders as `Request failed: <description>`.  The 404 body
`{"errorCode": 40102, "message": "not found"}` surfaces verbatim. -/
theorem C3_error_normalization (cfg : Config) (store : Store)
    (method path : String) (eh : List (String × String))
    (params : List (String × Py)) (data : String) (jb : Option Py) :
    (∀ resp : HttpResponse,
      store (buildRequest cfg method path eh params data jb) = .ok resp →
      400 ≤ resp.status → resp.status < 600 →
      (resp.body = .empty →
        (makeRequest cfg store method path eh params data jb).1 =
          .error (.http (.int (-1)) (.str "<unknown>"))) ∧
      (∀ t fields, resp.body = .json t (.dict fields) →
        (∀ c m, lookupStr fields "errorCode" = some c →
          lookupStr fields "message" = some m →
          (makeRequest cfg store method path eh params data jb).1 =
            .error (.http c m)) ∧
        (lookupStr fields "errorCode" = Option.none →
          lookupStr fields "message" = Option.none →
          (makeRequest cfg store method path eh params data jb).1 =
            .error (.http (.int (-1)) (.str "<unknown>")))) ∧
      (∀ t dm, resp.body = .notJson t dm →
        (makeRequest cfg store method path eh params data jb).1 =
          .error (.jsonDecode dm))) ∧
    (∀ d, store (buildRequest cfg method path eh params data jb) =
        .transportFail d →
      (makeRequest cfg store method path eh params data jb).1 =
        .error (.transportErr d) ∧
      (ReqError.transportErr d).toMessage = "Request failed: " ++ d) ∧
    (makeRequest (toolConfig "k" "h") stubStore404 "GET" "/vault/a.md"
        [] [] "" Option.none).1 =
      .error (.http (.int 40102) (.str "not found")) := by
  refine ⟨fun resp hst h4 h6 => ⟨fun hb => ?_, fun t fields hb => ⟨?_, ?_⟩,
    fun t dm hb => ?_⟩, fun d hst => ⟨?_, rfl⟩, rfl⟩
  · simp [makeRequest, makeRequestResult, hst, hb, h4, h6]
  · intro c m hc hm
    simp [makeRequest, makeRequestResult, hst, hb, h4, h6, dGet, hc, hm]
  · intro hc hm
    simp [makeRequest, makeRequestResult, hst, hb, h4, h6, dGet, hc, hm]
  · simp [makeRequest, makeRequestResult, hst, hb, h4, h6]
  · simp [makeRequest, makeRequestResult, hst]

/-- C3 (witness): the normalization applied at a concrete 404 with an
empty body, and at a concrete transport failure. -/
theorem C3_witness :
    (makeRequest (toolConfig "k" "h")
        (fun _ => .ok { status := 404, body := .empty })
        "GET" "/vault/a.md" [] [] "" Option.none).1 =
      .error (.http (.int (-1)) (.str "<unknown>")) ∧
    (makeRequest (toolConfig "k" "h")
        (fun _ => .transportFail "connection refused")
        "GET" "/vault/a.md" [] [] "" Option.none).1 =
      .error (.transportErr "connection refused") :=
  ⟨((C3_error_normalization (toolConfig "k" "h")
      (fun _ => .ok { status := 404, body := .empty })
      "GET" "/vault/a.md" [] [] "" Option.none).1
      { status := 404, body := .empty } rfl (by decide) (by decide)).1 rfl,
   ((C3_error_normalization (toolConfig "k" "h")
      (fun _ => .transportFail "connection refused")
      "GET" "/vault/a.md" [] [] "" Option.none).2.1
      "connection refused" rfl).1⟩

/-- A store stub for the spec's batch scenario: `a.md` reads back the
text `hello A`; every other path (in particular `missing.md`) gets a 404
with the store's JSON error body. -/
def batchStore : Store := fun r =>
  if r.path == "/vault/a.md" then
    .ok { status := 200,
          body := .notJson "hello A" "Expecting value: line 1 column 1 (char 0)" }
  else
    .ok { status := 404,
          body := .json "e"
            (.dict [("errorCode", .int 40102), ("message", .str "not found")]) }

/-- C4: the batch reader reads each path in input order, substitutes the
inline error block for a failed file while the remaining files are still
processed, concatenates one block per file in input order, and always
returns success; in the spec's two-file scenario the result holds a
normal block for `a.md` and an inline error block for `missing.md` in
input order, and the overall call succeeds. -/
theorem C4_batch_partial_failure (cfg : Config) (store : Store)
    (today : String) (filepaths : List String) :
    Obsidian.get_batch_file_contents cfg store today filepaths =
      (.ok (String.join (filepaths.map (fun fp =>
          Obsidian.batchBlock fp (Obsidian.get_file_contents cfg store today fp).1))),
       (filepaths.map (fun fp =>
          (Obsidian.get_file_contents cfg store today fp).2)).flatten) ∧
    Tools.batch_get_file_contents "k" "h" true batchStore "2025-06-01"
        ["a.md", "missing.md"] =
      (.ok (.str "# a.md\n\n\x7b'now': '2025-06-01', 'content': 'hello A'\x7d\n\n---\n\n# missing.md\n\nError reading file: Error 40102: not found\n\n---\n\n"),
       [buildRequest (toolConfig "k" "h") "GET" "/vault/a.md" [] [] "" Option.none,
        buildRequest (toolConfig "k" "h") "GET" "/vault/missing.md" [] [] ""
          Option.none]) := by
  constructor
  · simp only [Obsidian.get_batch_file_contents, List.map_map]
    exact rfl
  · rfl

/-- C5: the round-trip scenario evaluated on the code.  Against a store
stub that accepts the POST and echoes the appended body, `append_content`
succeeds and `get_file_contents` returns the `{'now', 'content'}` dict
whose `content` field is exactly the appended text — but the tool's
return value is that dict, not the bare text its `-> str` annotation and
description promise. -/
theorem C5_roundtrip_returns_dict :
    (Tools.append_content "k" "h" true echoStoreHello "a.md" "hello").1 =
      .ok (.str "Successfully appended content to a.md") ∧
    (Tools.get_file_contents "k" "h" true echoStoreHello "2025-06-01" "a.md").1 =
      .ok (.dict [("now", .str "2025-06-01"), ("content", .str "hello")]) ∧
    Except.ok (Py.dict [("now", .str "2025-06-01"), ("content", .str "hello")]) ≠
      (Except.ok (Py.str "hello") : Except ToolError Py) := by
  refine ⟨rfl, rfl, fun hcontra => ?_⟩
  cases hcontra

/-- A store stub whose simple-search reply is one raw result carrying
only `{filename}` — no score, no matches. -/
def stubSearchFilenameOnly : Store := fun _ =>
  .ok { status := 200, body := .json "r" (.list [.dict [("filename", .str "a.md")]]) }

/-- Every successfully reshaped match entry has exactly the
`{context, match_position: {start, end}}` shape. -/
theorem formatMatch_shape : ∀ (m fm : Py), Tools.formatMatch m = .ok fm →
    ∃ c s e, fm = .dict [("context", c),
      ("match_position", .dict [("start", s), ("end", e)])]
  | .dict mf, fm, h => by
    simp only [Tools.formatMatch] at h
    split at h
    · cases h
      exact ⟨_, _, _, rfl⟩
    · cases h
  | .none, fm, h => by simp [Tools.formatMatch] at h
  | .bool b, fm, h => by simp [Tools.formatMatch] at h
  | .int n, fm, h => by simp [Tools.formatMatch] at h
  | .str s, fm, h => by simp [Tools.formatMatch] at h
  | .list xs, fm, h => by simp [Tools.formatMatch] at h

/-- The shape guarantee of `formatMatch_shape`, extended over the inner
reshaping loop. -/
theorem formatMatches_shape : ∀ (ms fms : List Py),
    Tools.formatMatches ms = .ok fms → ∀ fm ∈ fms,
    ∃ c s e, fm = .dict [("context", c),
      ("match_position", .dict [("start", s), ("end", e)])]
  | [], fms, h => by
    cases h
    simp
  | m :: rest, fms, h => by
    simp only [Tools.formatMatches] at h
    cases hm : Tools.formatMatch m with
    | error e => rw [hm] at h; cases h
    | ok fm' =>
      rw [hm] at h
      cases hr : Tools.formatMatches rest with
      | error e => rw [hr] at h; cases h
      | ok fr =>
        rw [hr] at h
        cases h
        intro fm hfm
        rcases List.mem_cons.mp hfm with heq | hmem
        · exact heq ▸ formatMatch_shape m fm' hm
        · exact formatMatches_shape rest fr hr fm hmem

/-- Every successfully reshaped result has exactly the
`{filename, score, matches}` shape, its matches each in the reshaped
match form — whatever extra fields the raw result carried. -/
theorem formatResult_shape : ∀ (r fr : Py), Tools.formatResult r = .ok fr →
    ∃ fn sc ms, fr = .dict [("filename", fn), ("score", sc),
        ("matches", .list ms)] ∧
      ∀ fm ∈ ms, ∃ c s e, fm = .dict [("context", c),
        ("match_position", .dict [("start", s), ("end", e)])]
  | .dict rf, fr, h => by
    simp only [Tools.formatResult] at h
    split at h
    · next ms heq =>
      cases hms : Tools.formatMatches ms with
      | error e => rw [hms] at h; cases h
      | ok fms =>
        rw [hms] at h
        cases h
        exact ⟨_, _, fms, rfl, formatMatches_shape ms fms hms⟩
    · cases h
  | .none, fr, h => by simp [Tools.formatResult] at h
  | .bool b, fr, h => by simp [Tools.formatResult] at h
  | .int n, fr, h => by simp [Tools.formatResult] at h
  | .str s, fr, h => by simp [Tools.formatResult] at h
  | .list xs, fr, h => by simp [Tools.formatResult] at h

/-- A raw result lacking both `matches` and `score` is reshaped with
score defaulted to 0 and matches defaulted to the empty list. -/
theorem formatResult_defaults (rf : List (String × Py))
    (hm : lookupStr rf "matches" = Option.none)
    (hs : lookupStr rf "score" = Option.none) :
    Tools.formatResult (.dict rf) =
      .ok (.dict [("filename", dGet rf "filename" (.str "")),
                  ("score", .int 0), ("matches", .list [])]) := by
  simp only [Tools.formatResult, dGet, hm, hs]
  rfl

/-- C6: the simple-search handler re-projects each raw store result into
exactly `{filename, score, matches}` (each match into
`{context, match_position: {start, end}}`), dropping extra store fields;
a missing score defaults to 0, missing matches to the empty list, and a
missing context to the empty string; a raw result carrying only
`{filename}` yields `{filename, score: 0, matches: []}` exactly. -/
theorem C6_simple_search_shaping (k h query : String) (cl : Int)
    (store : Store) (results outs : List Py) (t : String) :
    (store (buildRequest (toolConfig k h) "POST" "/search/simple/" []
        [("query", .str query), ("contextLength", .int cl)] "" Option.none) =
        .ok { status := 200, body := .json t (.list results) } →
      Tools.formatResults results = .ok outs →
      (Tools.simple_search k h true store query cl).1 = .ok (.list outs)) ∧
    (∀ r fr, Tools.formatResult r = .ok fr →
      ∃ fn sc ms, fr = .dict [("filename", fn), ("score", sc),
          ("matches", .list ms)] ∧
        ∀ fm ∈ ms, ∃ c s e, fm = .dict [("context", c),
          ("match_position", .dict [("start", s), ("end", e)])]) ∧
    (∀ rf, lookupStr rf "matches" = Option.none →
      lookupStr rf "score" = Option.none →
      Tools.formatResult (.dict rf) =
        .ok (.dict [("filename", dGet rf "filename" (.str "")),
                    ("score", .int 0), ("matches", .list [])])) ∧
    (∀ mf, lookupStr mf "context" = Option.none →
      lookupStr mf "match" = Option.none →
      Tools.formatMatch (.dict mf) =
        .ok (.dict [("context", .str ""),
                    ("match_position", .dict [("start", .int 0), ("end", .int 0)])])) ∧
    (Tools.simple_search "k" "h" true stubSearchFilenameOnly "foo" 50).1 =
      .ok (.list [.dict [("filename", .str "a.md"), ("score", .int 0),
                         ("matches", .list [])]]) := by
  refine ⟨fun hst hfr => ?_, formatResult_shape, formatResult_defaults,
    fun mf hc hm => ?_, rfl⟩
  · simp only [toolConfig] at hst
    simp [Tools.simple_search, mkObsidian, liftClient, Obsidian.search,
      makeRequest, makeRequestResult, hst, Body.jsonOf, hfr, Except.bind,
      Except.map, (show ¬ (400 ≤ 200 ∧ 200 < 600) by decide)]
  · simp only [Tools.formatMatch, dGet, hc, hm]
    rfl

/-- C6 (witness): the shaping applied end to end at the spec's
`{filename}`-only store stub. -/
theorem C6_witness :
    (Tools.simple_search "k" "h" true stubSearchFilenameOnly "foo" 50).1 =
      .ok (.list [.dict [("filename", .str "a.md"), ("score", .int 0),
                         ("matches", .list [])]]) :=
  (C6_simple_search_shaping "k" "h" "foo" 50 stubSearchFilenameOnly
    [.dict [("filename", .str "a.md")]]
    [.dict [("filename", .str "a.md"), ("score", .int 0), ("matches", .list [])]]
    "r").1 rfl rfl

/-- C7: for validated positive limit and days, get_recent_changes POSTs
exactly one request to `/search/` with the Dataview DQL content type,
whose body is the generated query — a table of `file.mtime`, filtered to
the last `days` days, sorted descending, capped at `limit`. -/
theorem C7_recent_changes_query (k h : String) (store : Store)
    (limit days : Int) (hl : 1 ≤ limit) (hd : 1 ≤ days) :
    (Tools.get_recent_changes k h true store limit days).2 =
      [{ method := "POST", path := "/search/",
         headers := [("Authorization", "Bearer " ++ k),
                     ("Content-Type", "application/vnd.olrapi.dataview.dql+txt")],
         params := [],
         body := "TABLE file.mtime\nWHERE file.mtime >= date(today) - dur("
           ++ toString days ++ " days)\nSORT file.mtime DESC\nLIMIT " ++ toString limit,
         jsonBody := Option.none }] := by
  have h1 : ¬ (limit < 1) := by omega
  have h2 : ¬ (days < 1) := by omega
  simp only [Tools.get_recent_changes, if_neg h1, if_neg h2]
  rfl

/-- C7 (witness): the generated request at the default limit and days. -/
theorem C7_witness :
    (Tools.get_recent_changes "k" "h" true stubStore204 10 90).2 =
      [{ method := "POST", path := "/search/",
         headers := [("Authorization", "Bearer k"),
                     ("Content-Type", "application/vnd.olrapi.dataview.dql+txt")],
         params := [],
         body := "TABLE file.mtime\nWHERE file.mtime >= date(today) - dur(90 days)\nSORT file.mtime DESC\nLIMIT 10",
         jsonBody := Option.none }] :=
  C7_recent_changes_query "k" "h" stubStore204 10 90 (by decide) (by decide)

/-- C8: each of the five valid period keywords makes get_periodic_note
issue a GET to `/periodic/{period}/`, and makes get_recent_periodic_notes
issue a GET to `/periodic/{period}/recent` whose query parameters are
exactly `limit` and `includeContent` with the given values. -/
theorem C8_periodic_paths (k h : String) (store : Store) (period : String)
    (limit : Int) (ic : Bool) (hp : period ∈ validPeriods) (hl : 1 ≤ limit) :
    (Tools.get_periodic_note k h true store period).2 =
      [{ method := "GET", path := "/periodic/" ++ period ++ "/",
         headers := [("Authorization", "Bearer " ++ k)], params := [],
         body := "", jsonBody := Option.none }] ∧
    (Tools.get_recent_periodic_notes k h true store period limit ic).2 =
      [{ method := "GET", path := "/periodic/" ++ period ++ "/recent",
         headers := [("Authorization", "Bearer " ++ k)],
         params := [("limit", .int limit), ("includeContent", .bool ic)],
         body := "", jsonBody := Option.none }] := by
  have hc : validPeriods.contains period = true := by
    simpa using hp
  have hl1 : ¬ (limit < 1) := by omega
  constructor
  · simp only [Tools.get_periodic_note, hc]
    rfl
  · simp only [Tools.get_recent_periodic_notes, hc, if_neg hl1]
    rfl

/-- C8 (witness): the paths and query parameters at period `daily`,
limit 5, include_content false. -/
theorem C8_witness :
    (Tools.get_periodic_note "k" "h" true stubStore204 "daily").2 =
      [{ method := "GET", path := "/periodic/daily/",
         headers := [("Authorization", "Bearer k")], params := [],
         body := "", jsonBody := Option.none }] ∧
    (Tools.get_recent_periodic_notes "k" "h" true stubStore204 "daily" 5 false).2 =
      [{ method := "GET", path := "/periodic/daily/recent",
         headers := [("Authorization", "Bearer k")],
         params := [("limit", .int 5), ("includeContent", .bool false)],
         body := "", jsonBody := Option.none }] :=
  C8_periodic_paths "k" "h" stubStore204 "daily" 5 false (by decide) (by decide)

/-- Headers built by `_make_request` always keep the base Authorization
entry when the capability headers do not override it (no capability in
this code base does). -/
theorem buildRequest_authOk (cfg : Config) (method path : String)
    (eh : List (String × String)) (params : List (String × Py)) (data : String)
    (jb : Option Py) (hnoauth : lookupStr eh "Authorization" = Option.none) :
    authOk cfg.apiKey (buildRequest cfg method path eh params data jb) := by
  simp only [authOk, buildRequest, dictUpdate, List.map_cons, List.map_nil, hnoauth]
  rfl

/-- C9: every request any of the twelve tool operations issues carries
the header `Authorization: Bearer {token}` built from the configured
token; the capability-specific headers are merged on top without
displacing it. -/
theorem C9_auth_header (k h dirpath today filepath query content operation
      target_type target period : String) (vaultOk : Bool) (store : Store)
    (cl limit days : Int) (ic confirm : Bool) (jq : Py)
    (filepaths : List String) :
    (∀ r ∈ (Tools.list_files_in_vault k h vaultOk store).2, authOk k r) ∧
    (∀ r ∈ (Tools.list_files_in_dir k h vaultOk store dirpath).2, authOk k r) ∧
    (∀ r ∈ (Tools.get_file_contents k h vaultOk store today filepath).2, authOk k r) ∧
    (∀ r ∈ (Tools.simple_search k h vaultOk store query cl).2, authOk k r) ∧
    (∀ r ∈ (Tools.append_content k h vaultOk store filepath content).2, authOk k r) ∧
    (∀ r ∈ (Tools.patch_content k h vaultOk store filepath operation
        target_type target content).2, authOk k r) ∧
    (∀ r ∈ (Tools.delete_file k h vaultOk store filepath confirm).2, authOk k r) ∧
    (∀ r ∈ (Tools.complex_search k h vaultOk store jq).2, authOk k r) ∧
    (∀ r ∈ (Tools.batch_get_file_contents k h vaultOk store today filepaths).2,
      authOk k r) ∧
    (∀ r ∈ (Tools.get_periodic_note k h vaultOk store period).2, authOk k r) ∧
    (∀ r ∈ (Tools.get_recent_periodic_notes k h vaultOk store period limit ic).2,
      authOk k r) ∧
    (∀ r ∈ (Tools.get_recent_changes k h vaultOk store limit days).2, authOk k r) := by
  cases vaultOk with
  | false =>
    refine ⟨fun r hr => ?_, fun r hr => ?_, fun r hr => ?_, fun r hr => ?_,
      fun r hr => ?_, fun r hr => ?_, fun r hr => ?_, fun r hr => ?_,
      fun r hr => ?_, fun r hr => ?_, fun r hr => ?_, fun r hr => ?_⟩
    · cases show r ∈ ([] : List Request) from hr
    · cases show r ∈ ([] : List Request) from hr
    · cases show r ∈ ([] : List Request) from hr
    · cases show r ∈ ([] : List Request) from hr
    · cases show r ∈ ([] : List Request) from hr
    · cases show r ∈ ([] : List Request) from hr
    · cases confirm
      · cases show r ∈ ([] : List Request) from hr
      · cases show r ∈ ([] : List Request) from hr
    · cases show r ∈ ([] : List Request) from hr
    · cases show r ∈ ([] : List Request) from hr
    · simp only [Tools.get_periodic_note] at hr
      split at hr
      · cases hr
      · cases hr
    · simp only [Tools.get_recent_periodic_notes] at hr
      split at hr
      · cases hr
      · split at hr
        · cases hr
        · cases hr
    · simp only [Tools.get_recent_changes] at hr
      split at hr
      · cases hr
      · split at hr
        · cases hr
        · cases hr
  | true =>
    refine ⟨fun r hr => ?_, fun r hr => ?_, fun r hr => ?_, fun r hr => ?_,
      fun r hr => ?_, fun r hr => ?_, fun r hr => ?_, fun r hr => ?_,
      fun r hr => ?_, fun r hr => ?_, fun r hr => ?_, fun r hr => ?_⟩
    · cases List.mem_singleton.mp (show r ∈ [buildRequest (toolConfig k h)
          "GET" "/vault/" [] [] "" Option.none] from hr)
      exact buildRequest_authOk _ _ _ _ _ _ _ rfl
    · cases List.mem_singleton.mp (show r ∈ [buildRequest (toolConfig k h)
          "GET" ("/vault/" ++ dirpath ++ "/") [] [] "" Option.none] from hr)
      exact buildRequest_authOk _ _ _ _ _ _ _ rfl
    · cases List.mem_singleton.mp (show r ∈ [buildRequest (toolConfig k h)
          "GET" ("/vault/" ++ filepath) [] [] "" Option.none] from hr)
      exact buildRequest_authOk _ _ _ _ _ _ _ rfl
    · cases List.mem_singleton.mp (show r ∈ [buildRequest (toolConfig k h)
          "POST" "/search/simple/" []
          [("query", .str query), ("contextLength", .int cl)] ""
          Option.none] from hr)
      exact buildRequest_authOk _ _ _ _ _ _ _ rfl
    · cases List.mem_singleton.mp (show r ∈ [buildRequest (toolConfig k h)
          "POST" ("/vault/" ++ filepath) [("Content-Type", "text/markdown")]
          [] content Option.none] from hr)
      exact buildRequest_authOk _ _ _ _ _ _ _ rfl
    · cases List.mem_singleton.mp (show r ∈ [buildRequest (toolConfig k h)
          "PATCH" ("/vault/" ++ filepath)
          [("Content-Type", "text/markdown"), ("Operation", operation),
           ("Target-Type", target_type), ("Target", urlQuote target)]
          [] content Option.none] from hr)
      exact buildRequest_authOk _ _ _ _ _ _ _ rfl
    · cases confirm
      · cases show r ∈ ([] : List Request) from hr
      · cases List.mem_singleton.mp (show r ∈ [buildRequest (toolConfig k h)
            "DELETE" ("/vault/" ++ filepath) [] [] "" Option.none] from hr)
        exact buildRequest_authOk _ _ _ _ _ _ _ rfl
    · cases List.mem_singleton.mp (show r ∈ [buildRequest (toolConfig k h)
          "POST" "/search/"
          [("Content-Type", "application/vnd.olrapi.jsonlogic+json")] [] ""
          (some jq)] from hr)
      exact buildRequest_authOk _ _ _ _ _ _ _ rfl
    · have ht : (Tools.batch_get_file_contents k h true store today filepaths).2 =
          (filepaths.map (fun fp => [buildRequest (toolConfig k h) "GET"
            ("/vault/" ++ fp) [] [] "" Option.none])).flatten := by
        simp only [Tools.batch_get_file_contents, mkObsidian, liftClient,
          Obsidian.get_batch_file_contents, List.map_map]
        exact rfl
      rw [ht] at hr
      rcases List.mem_flatten.mp hr with ⟨l, hl, hrl⟩
      rcases List.mem_map.mp hl with ⟨fp, hfp, rfl⟩
      cases List.mem_singleton.mp hrl
      exact buildRequest_authOk _ _ _ _ _ _ _ rfl
    · by_cases hc : validPeriods.contains period = true
      · have ht : (Tools.get_periodic_note k h true store period).2 =
            [buildRequest (toolConfig k h) "GET" ("/periodic/" ++ period ++ "/")
              [] [] "" Option.none] := by
          simp only [Tools.get_periodic_note, hc]
          rfl
        rw [ht] at hr
        cases List.mem_singleton.mp hr
        exact buildRequest_authOk _ _ _ _ _ _ _ rfl
      · have hm : period ∉ validPeriods := by simpa using hc
        have ht : (Tools.get_periodic_note k h true store period).2 = [] := by
          simp [Tools.get_periodic_note, hm]
        rw [ht] at hr
        cases hr
    · by_cases hc : validPeriods.contains period = true
      · by_cases hl : limit < 1
        · have ht : (Tools.get_recent_periodic_notes k h true store period
              limit ic).2 = [] := by
            simp only [Tools.get_recent_periodic_notes, if_pos hl]
            split <;> rfl
          rw [ht] at hr
          cases hr
        · have ht : (Tools.get_recent_periodic_notes k h true store period
              limit ic).2 =
              [buildRequest (toolConfig k h) "GET"
                ("/periodic/" ++ period ++ "/recent") []
                [("limit", .int limit), ("includeContent", .bool ic)] ""
                Option.none] := by
            simp only [Tools.get_recent_periodic_notes, hc, if_neg hl]
            rfl
          rw [ht] at hr
          cases List.mem_singleton.mp hr
          exact buildRequest_authOk _ _ _ _ _ _ _ rfl
      · have hm : period ∉ validPeriods := by simpa using hc
        have ht : (Tools.get_recent_periodic_notes k h true store period
            limit ic).2 = [] := by
          simp [Tools.get_recent_periodic_notes, hm]
        rw [ht] at hr
        cases hr
    · by_cases hl : limit < 1
      · have ht : (Tools.get_recent_changes k h true store limit days).2 = [] := by
          simp [Tools.get_recent_changes, hl]
        rw [ht] at hr
        cases hr
      · by_cases hd : days < 1
        · have ht : (Tools.get_recent_changes k h true store limit days).2 = [] := by
            simp [Tools.get_recent_changes, hl, hd]
          rw [ht] at hr
          cases hr
        · have ht : (Tools.get_recent_changes k h true store limit days).2 =
              [buildRequest (toolConfig k h) "POST" "/search/"
                [("Content-Type", "application/vnd.olrapi.dataview.dql+txt")] []
                (Obsidian.dqlQuery limit days) Option.none] := by
            simp only [Tools.get_recent_changes, if_neg hl, if_neg hd]
            rfl
          rw [ht] at hr
          cases List.mem_singleton.mp hr
          exact buildRequest_authOk _ _ _ _ _ _ _ rfl

/-- C9 (witness): the auth-header invariant read off the DELETE request
of a concrete delete_file invocation. -/
theorem C9_witness :
    authOk "k" (buildRequest (toolConfig "k" "h") "DELETE" "/vault/a.md"
      [] [] "" Option.none) :=
  ((C9_auth_header "k" "h" "d" "2025-06-01" "a.md" "q" "c" "append" "heading"
      "t" "daily" true stubStore204 100 5 90 false true Py.none []).2.2.2.2.2.2.1)
    (buildRequest (toolConfig "k" "h") "DELETE" "/vault/a.md" [] [] "" Option.none)
    (List.mem_singleton.mpr rfl)

/-- C10: every tool handler constructs a fresh Client per invocation, and
when the hardcoded default local vault directory is missing the
constructor's FileNotFoundError aborts every operation — including purely
remote ones — before any HTTP request is issued (arguments that pass the
handler's own validation shown; validation failures abort even earlier,
per C2). -/
theorem C10_vault_gate (k h dirpath today filepath query content operation
      target_type target period : String) (store : Store)
    (cl limit days : Int) (ic : Bool) (jq : Py) (filepaths : List String) :
    Tools.list_files_in_vault k h false store =
      (.error (.fileNotFound
        "Local Obsidian vault not found at C:\\Users\\joelc\\Obsidian\\Home"), []) ∧
    Tools.list_files_in_dir k h false store dirpath =
      (.error (.fileNotFound
        "Local Obsidian vault not found at C:\\Users\\joelc\\Obsidian\\Home"), []) ∧
    Tools.get_file_contents k h false store today filepath =
      (.error (.fileNotFound
        "Local Obsidian vault not found at C:\\Users\\joelc\\Obsidian\\Home"), []) ∧
    Tools.simple_search k h false store query cl =
      (.error (.fileNotFound
        "Local Obsidian vault not found at C:\\Users\\joelc\\Obsidian\\Home"), []) ∧
    Tools.append_content k h false store filepath content =
      (.error (.fileNotFound
        "Local Obsidian vault not found at C:\\Users\\joelc\\Obsidian\\Home"), []) ∧
    Tools.patch_content k h false store filepath operation target_type target content =
      (.error (.fileNotFound
        "Local Obsidian vault not found at C:\\Users\\joelc\\Obsidian\\Home"), []) ∧
    Tools.delete_file k h false store filepath true =
      (.error (.fileNotFound
        "Local Obsidian vault not found at C:\\Users\\joelc\\Obsidian\\Home"), []) ∧
    Tools.complex_search k h false store jq =
      (.error (.fileNotFound
        "Local Obsidian vault not found at C:\\Users\\joelc\\Obsidian\\Home"), []) ∧
    Tools.batch_get_file_contents k h false store today filepaths =
      (.error (.fileNotFound
        "Local Obsidian vault not found at C:\\Users\\joelc\\Obsidian\\Home"), []) ∧
    (period ∈ validPeriods →
      Tools.get_periodic_note k h false store period =
        (.error (.fileNotFound
          "Local Obsidian vault not found at C:\\Users\\joelc\\Obsidian\\Home"), [])) ∧
    (period ∈ validPeriods → 1 ≤ limit →
      Tools.get_recent_periodic_notes k h false store period limit ic =
        (.error (.fileNotFound
          "Local Obsidian vault not found at C:\\Users\\joelc\\Obsidian\\Home"), [])) ∧
    (1 ≤ limit → 1 ≤ days →
      Tools.get_recent_changes k h false store limit days =
        (.error (.fileNotFound
          "Local Obsidian vault not found at C:\\Users\\joelc\\Obsidian\\Home"), [])) := by
  refine ⟨rfl, rfl, rfl, rfl, rfl, rfl, rfl, rfl, rfl,
    fun hp => ?_, fun hp hl => ?_, fun hl hd => ?_⟩
  · have hc : validPeriods.contains period = true := by simpa using hp
    simp only [Tools.get_periodic_note, hc]
    rfl
  · have hc : validPeriods.contains period = true := by simpa using hp
    have hl1 : ¬ (limit < 1) := by omega
    simp only [Tools.get_recent_periodic_notes, hc, if_neg hl1]
    rfl
  · have hl1 : ¬ (limit < 1) := by omega
    have hd1 : ¬ (days < 1) := by omega
    simp only [Tools.get_recent_changes, if_neg hl1, if_neg hd1]
    rfl

/-- C10 (witness): the missing-vault failure at concrete arguments for a
purely remote listing and for a validated periodic read. -/
theorem C10_witness :
    Tools.list_files_in_vault "k" "h" false stubStore204 =
      (.error (.fileNotFound
        "Local Obsidian vault not found at C:\\Users\\joelc\\Obsidian\\Home"), []) ∧
    Tools.get_recent_periodic_notes "k" "h" false stubStore204 "daily" 5 false =
      (.error (.fileNotFound
        "Local Obsidian vault not found at C:\\Users\\joelc\\Obsidian\\Home"), []) :=
  ⟨(C10_vault_gate "k" "h" "d" "2025-06-01" "a.md" "q" "c" "append" "heading"
      "t" "daily" stubStore204 100 5 90 false Py.none []).1,
   (C10_vault_gate "k" "h" "d" "2025-06-01" "a.md" "q" "c" "append" "heading"
      "t" "daily" stubStore204 100 5 90 false Py.none []).2.2.2.2.2.2.2.2.2.2.1
      (by decide) (by decide)⟩
